import Mathlib

/-!
Shallow embedding of the retrieval-and-scoring subsystem of the
humanoid_robotic_book RAG pipeline:

* `src/Rag_Chatbot_Deployment/src/storage/vector_storage.py`
  (`VectorStorage.search`, `VectorStorage.validate_metadata`), and
* `src/backend/src/services/retrieval_service.py`
  (`RetrievalService.retrieve_context`).

Python floats are modelled as rationals (`Rat`, exact arithmetic), Python
runtime values as the inductive `PyVal`, and Python exceptions as values of
`PyExn` threaded through `Except`.
-/

/-- A Python runtime value as it can occur in search results and payloads.
`pyObj` models an object exposing a `__dict__` attribute holding the given
entries.  (Sets and other exotic values do not occur in this pipeline.) -/
inductive PyVal where
  | pyNone : PyVal
  | pyBool : Bool → PyVal
  | pyInt : Int → PyVal
  | pyFloat : Rat → PyVal
  | pyStr : String → PyVal
  | pyList : List PyVal → PyVal
  | pyTuple : List PyVal → PyVal
  | pyDict : List (String × PyVal) → PyVal
  | pyObj : List (String × PyVal) → PyVal

/-- A Python exception: its class name and its message. -/
structure PyExn where
  ty : String
  msg : String
deriving DecidableEq

/-- `d.get(k, dflt)` on a dict with string keys. -/
def pyGet (d : List (String × PyVal)) (k : String) (dflt : PyVal) : PyVal :=
  (d.lookup k).getD dflt

/-- `k in d` on a dict with string keys. -/
def hasKey (d : List (String × PyVal)) (k : String) : Bool :=
  (d.lookup k).isSome

/-- The entries of a value that is known to be a dict (empty otherwise). -/
def asDict : PyVal → List (String × PyVal)
  | .pyDict d => d
  | _ => []

/-- Python truthiness, as used by `if result['url']:`. -/
def pyTruthy : PyVal → Bool
  | .pyNone => false
  | .pyBool b => b
  | .pyInt n => n != 0
  | .pyFloat q => q != 0
  | .pyStr s => s != ""
  | .pyList l => !l.isEmpty
  | .pyTuple l => !l.isEmpty
  | .pyDict d => !d.isEmpty
  | .pyObj _ => true

/-- `len(v)`: defined on sized values, a `TypeError` otherwise. -/
def pyLenE : PyVal → Except PyExn Nat
  | .pyStr s => .ok s.length
  | .pyList l => .ok l.length
  | .pyTuple l => .ok l.length
  | .pyDict d => .ok d.length
  | _ => .error ⟨"TypeError", "object has no len"⟩

/-- Calling a str-only method (`.lower()` / `.strip()`) on a value: an
`AttributeError` unless the value is a string. -/
def pyStrAttr : PyVal → Except PyExn String
  | .pyStr s => .ok s
  | _ => .error ⟨"AttributeError", "object has no attribute lower"⟩

/-- `isinstance(v, (int, float))`; Python bools are ints. -/
def isNumeric : PyVal → Bool
  | .pyBool _ => true
  | .pyInt _ => true
  | .pyFloat _ => true
  | _ => false

/-- `isinstance(v, str)`. -/
def isStr : PyVal → Bool
  | .pyStr _ => true
  | _ => false

/-- `isinstance(v, list)`. -/
def isList : PyVal → Bool
  | .pyList _ => true
  | _ => false

/-- `isinstance(v, int)`; Python bools are ints. -/
def isIntLike : PyVal → Bool
  | .pyInt _ => true
  | .pyBool _ => true
  | _ => false

/-- `isinstance(v, dict)`. -/
def isDict : PyVal → Bool
  | .pyDict _ => true
  | _ => false

/-- Rational multiplication, stated through `mkRat` so that concrete runs
reduce inside the kernel; `ratMul_eq_mul` shows it is ordinary multiplication
on `Rat`. -/
def ratMul (a b : Rat) : Rat :=
  mkRat (a.num * b.num) (a.den * b.den)

/-- Rational addition through `mkRat`; `ratAdd_eq_add` shows it is ordinary
addition on `Rat`. -/
def ratAdd (a b : Rat) : Rat :=
  mkRat (a.num * b.den + b.num * a.den) (a.den * b.den)

/-- Python `str.lower()` (ASCII case folding, which covers this corpus). -/
def pyLower (s : String) : String :=
  String.mk (s.data.map Char.toLower)

/-- Python `str.strip()` with no argument: drop whitespace from both ends. -/
def pyTrimWs (s : String) : String :=
  String.mk (((s.data.dropWhile Char.isWhitespace).reverse.dropWhile
    Char.isWhitespace).reverse)

/-- Python `str.startswith(p)`. -/
def pyStartsWith (s p : String) : Bool :=
  p.data.isPrefixOf s.data

/-- Python slicing `s[:n]` (by code points). -/
def pyTake (s : String) (n : Nat) : String :=
  String.mk (s.data.take n)

/-- Value of a non-empty all-digit character list, `none` otherwise. -/
def digitsVal (cs : List Char) : Option Nat :=
  if cs.isEmpty then Option.none
  else cs.foldl
    (fun acc c =>
      match acc with
      | Option.none => Option.none
      | some n => if c.isDigit then some (n * 10 + (c.toNat - 48)) else Option.none)
    (some 0)

/-- `float(s)` on a string: surrounding whitespace, an optional sign and a
decimal number with an optional fractional part.  (Exponent, `inf` and `nan`
forms are not modelled; they do not occur in this pipeline.) -/
def floatOfStr (s : String) : Option Rat :=
  let t := (pyTrimWs s).data
  let signed : Int × List Char :=
    match t with
    | '-' :: r => (-1, r)
    | '+' :: r => (1, r)
    | r => (1, r)
  let intPart := signed.2.takeWhile (fun c => c ≠ '.')
  let rest := signed.2.dropWhile (fun c => c ≠ '.')
  match rest with
  | [] => (digitsVal intPart).map (fun n => mkRat (signed.1 * n) 1)
  | _ :: frac =>
    if intPart.isEmpty ∧ frac.isEmpty then Option.none
    else if frac.any (fun c => !c.isDigit) then Option.none
    else if intPart.any (fun c => !c.isDigit) then Option.none
    else
      some (mkRat
        (signed.1 * ((digitsVal intPart).getD 0 * 10 ^ frac.length +
          (digitsVal frac).getD 0))
        (10 ^ frac.length))

/-- `float(v)`: succeeds on bools, ints, floats and numeric strings. -/
def pyToFloat : PyVal → Option Rat
  | .pyBool b => some (if b then 1 else 0)
  | .pyInt n => some (mkRat n 1)
  | .pyFloat q => some q
  | .pyStr s => floatOfStr s
  | _ => Option.none

/-- `vector_storage.py` lines 392-409: a tuple or list score collapses to its
first element when that element is numeric and to `0.0` otherwise; an empty
list or a dict collapses to `0.0`; everything else passes through to the
`float()` conversion.  (An empty tuple escapes every branch of the chain, as in
the source, and is caught by the failing `float()` conversion below.) -/
def collapseScore : PyVal → PyVal
  | .pyTuple (x :: _) => if isNumeric x then x else .pyFloat 0
  | .pyList (x :: _) => if isNumeric x then x else .pyFloat 0
  | .pyList [] => .pyFloat 0
  | .pyDict _ => .pyFloat 0
  | v => v

/-- `vector_storage.py` lines 391-416: full score coercion — collapse
tuple/list scores, then `float(score)` with `0.0` on failure. -/
def coerceScore (v : PyVal) : Rat :=
  (pyToFloat (collapseScore v)).getD 0

/-- The punctuation characters stripped from query terms
(`vector_storage.py` line 308): apostrophe, double quote, period, comma,
exclamation mark, question mark, parentheses, square and curly brackets. -/
def stripSet : List Char :=
  [39, 34, 46, 44, 33, 63, 40, 41, 91, 93, 123, 125].map Char.ofNat

/-- Python `str.strip(chars)`: drop the given characters from both ends. -/
def pyStrip (cs : List Char) (s : String) : String :=
  String.mk (((s.toList.dropWhile (fun c => cs.contains c)).reverse.dropWhile
    (fun c => cs.contains c)).reverse)

/-- The maximal non-whitespace runs of a character list, in order. -/
def wsTokens (l : List Char) : List (List Char) :=
  (l.foldr
    (fun c acc =>
      if c.isWhitespace then [] :: acc
      else
        match acc with
        | [] => [[c]]
        | t :: rest => (c :: t) :: rest)
    []).filter (fun t => !t.isEmpty)

/-- Python `str.split()` with no argument: split on whitespace runs, dropping
empty pieces. -/
def pySplitWs (s : String) : List String :=
  (wsTokens s.data).map String.mk

/-- `vector_storage.py` line 308: the whitespace tokens of the lower-cased
query of raw length above 2, each then stripped of surrounding punctuation. -/
def queryTerms (query : String) : List String :=
  ((pySplitWs (pyLower query)).filter (fun t => t.length > 2)).map (pyStrip stripSet)

/-- Contiguous-sublist test on character lists. -/
def listIsInfix (needle : List Char) : List Char → Bool
  | [] => needle.isEmpty
  | c :: t => needle.isPrefixOf (c :: t) || listIsInfix needle t

/-- Python substring test `needle in hay` (an empty needle always matches). -/
def strContains (hay needle : String) : Bool :=
  listIsInfix needle.toList hay.toList

/-- `term in content_lower or term in title_lower` (line 426). -/
def termMatches (contentL titleL : String) (term : String) : Bool :=
  strContains contentL term || strContains titleL term

/-- `vector_storage.py` lines 423-427: the loop counting matching terms (each
list element counts, so repeated query tokens are counted with
multiplicity). -/
def matchedTermsLoop (terms : List String) (contentL titleL : String) : Nat :=
  terms.foldl (fun acc t => if termMatches contentL titleL t then acc + 1 else acc) 0

/-- `vector_storage.py` lines 418-432: lexical boosting of one coerced score.
With `m` matched terms and `m > 0` the score becomes
`min (score * (1 + m * 0.2)) 1`; with no match it passes through. -/
def boostScore (score : Rat) (query content title : String) : Rat :=
  let m := matchedTermsLoop (queryTerms query) (pyLower content) (pyLower title)
  if 0 < m then min (ratMul score (ratAdd 1 (mkRat m 5))) 1 else score

/-- Spec section 4.2, as written: count DISTINCT query terms that appear in
content or title. -/
def matchedTermsDistinctSpec (query content title : String) : Nat :=
  ((queryTerms query).dedup).countP (termMatches (pyLower content) (pyLower title))

/-- The boosting formula of spec 4.2 applied to the DISTINCT term count, to be
compared against `boostScore`. -/
def boostScoreDistinctSpec (score : Rat) (query content title : String) : Rat :=
  let m := matchedTermsDistinctSpec query content title
  if 0 < m then min (ratMul score (ratAdd 1 (mkRat m 5))) 1 else score

/-- The matched-term count of the spec's tokenization, formulated
declaratively as a `countP` over the term list (multiplicity preserved). -/
def matchedTermsCount (query content title : String) : Nat :=
  (queryTerms query).countP (termMatches (pyLower content) (pyLower title))

/-- The boosting formula of spec 4.2 applied to the multiplicity-preserving
term count. -/
def boostScoreMultSpec (score : Rat) (query content title : String) : Rat :=
  let m := matchedTermsCount query content title
  if 0 < m then min (ratMul score (ratAdd 1 (mkRat m 5))) 1 else score

/-! ### MetadataValidator: `VectorStorage.validate_metadata` (lines 469-539) -/

/-- The validation report built by `validate_metadata`. -/
structure VReport where
  valid : Bool
  errors : List String
  warnings : List String
deriving DecidableEq

/-- The required top-level result fields (line 489). -/
def requiredTopFields : List String :=
  ["score", "payload", "url", "title", "content"]

/-- The required payload fields (line 502). -/
def requiredPayloadFields : List String :=
  ["url", "title", "content", "headings", "chunk_index", "source_document", "metadata"]

/-- Lines 490-493: one error per missing required top-level field, in field
order. -/
def vmRequiredTopErrors (result : List (String × PyVal)) : List String :=
  (requiredTopFields.filter (fun f => !(hasKey result f))).map
    (fun f => "Missing required field: " ++ f)

/-- Lines 508-525: the type check applied to one present payload field; the
source checks `isinstance` only (so `headings` elements and the sign of
`chunk_index` are not inspected, and bools pass the `int` check). -/
def payloadFieldError (f : String) (v : PyVal) : Option String :=
  if f = "url" ∨ f = "title" ∨ f = "content" ∨ f = "source_document" then
    if isStr v then Option.none
    else some ("Payload field \x27" ++ f ++ "\x27 must be a string")
  else if f = "headings" then
    if isList v then Option.none
    else some ("Payload field \x27" ++ f ++ "\x27 must be a list")
  else if f = "chunk_index" then
    if isIntLike v then Option.none
    else some ("Payload field \x27" ++ f ++ "\x27 must be an integer")
  else if f = "metadata" then
    if isDict v then Option.none
    else some ("Payload field \x27" ++ f ++ "\x27 must be a dictionary")
  else Option.none

/-- Lines 495-525: the errors contributed by the payload — either the
dedicated non-dict error, or the per-field missing/type errors accumulated in
field order. -/
def vmPayloadErrors (payload : PyVal) : List String :=
  match payload with
  | .pyDict pd =>
    requiredPayloadFields.foldl
      (fun acc f =>
        match pd.lookup f with
        | Option.none => acc ++ ["Missing required payload field: " ++ f]
        | some v =>
          match payloadFieldError f v with
          | some e => acc ++ [e]
          | Option.none => acc)
      []
  | _ => ["Payload must be a dictionary"]

/-- All errors of `validate_metadata`, in the order the source appends them;
`valid` is `true` exactly when this list is empty (the flag is set to `False`
precisely where an error is appended). -/
def vmErrors (result : List (String × PyVal)) : List String :=
  vmRequiredTopErrors result ++ vmPayloadErrors (pyGet result "payload" (.pyDict []))

/-- Lines 528-531: the URL-format warning; `result['url'].startswith` raises
`AttributeError` when the url value is truthy but not a string. -/
def vmWarnUrl (result : List (String × PyVal)) : Except PyExn (List String) :=
  match result.lookup "url" with
  | Option.none => .ok []
  | some u =>
    if pyTruthy u then
      match u with
      | .pyStr s =>
        if ["http://", "https://", "/", "#", "mailto:", "tel:"].any
            (fun p => pyStartsWith s p) then .ok []
        else .ok ["URL may not be properly formatted: " ++ pyTake s 50 ++ "..."]
      | _ => .error ⟨"AttributeError", "object has no attribute startswith"⟩
    else .ok []

/-- Line 533-534: the long-title warning; `len` raises `TypeError` on unsized
title values. -/
def vmWarnTitle (result : List (String × PyVal)) : Except PyExn (List String) :=
  match result.lookup "title" with
  | Option.none => .ok []
  | some t =>
    match pyLenE t with
    | .error e => .error e
    | .ok n => .ok (if n > 500 then ["Title appears to be excessively long"] else [])

/-- Lines 536-537: the short-content warning; `.strip()` is only reached (and
can only raise) when `len(result['content']) < 10`. -/
def vmWarnContent (result : List (String × PyVal)) : Except PyExn (List String) :=
  match result.lookup "content" with
  | Option.none => .ok []
  | some c =>
    match pyLenE c with
    | .error e => .error e
    | .ok n =>
      if n < 10 then
        match pyStrAttr c with
        | .error e => .error e
        | .ok s => .ok (if pyTrimWs s ≠ "" then ["Content appears to be very short"] else [])
      else .ok []

/-- `VectorStorage.validate_metadata` (lines 469-539): errors and the `valid`
flag are fully determined before the semantic-warning section, which can only
add warnings or raise. -/
def validate_metadata (result : List (String × PyVal)) : Except PyExn VReport :=
  let errs := vmErrors result
  match vmWarnUrl result with
  | .error e => .error e
  | .ok w1 =>
    match vmWarnTitle result with
    | .error e => .error e
    | .ok w2 =>
      match vmWarnContent result with
      | .error e => .error e
      | .ok w3 => .ok ⟨errs.isEmpty, errs, w1 ++ w2 ++ w3⟩

/-! ### ResultNormalizer: the per-hit part of `VectorStorage.search`
(lines 310-451) -/

/-- The raw-hit shapes handled by the normalisation loop: tuples (lines
314-334), dict-like results (lines 335-346), objects with a `score` attribute
(lines 347-374), and unknown objects probed with `getattr` (lines 375-389).
For `attrObj` the optional component is the `payload` attribute; for
`unknownObj` the components are the optional `payload` attribute and the first
available of the `score`/`score_`/`similarity` attributes. -/
inductive RawHit where
  | tup : List PyVal → RawHit
  | mapLike : List (String × PyVal) → RawHit
  | attrObj : PyVal → Option PyVal → RawHit
  | unknownObj : Option PyVal → Option PyVal → RawHit

/-- The repeated payload guard (lines 324-334 and copies): dicts pass through,
strings degrade to the empty dict with a logged warning, and any other value
degrades to its `__dict__` when it has one, else to the empty dict. -/
def coercePayload : PyVal → PyVal
  | .pyDict d => .pyDict d
  | .pyStr _ => .pyDict []
  | .pyObj d => .pyDict d
  | _ => .pyDict []

/-- Lines 310-389: extract the (payload, raw score) pair from one raw hit.
A tuple of length two is read as `(payload, score)`; other tuples fall back to
index 0 / index 1 with defaults `{}` / `0.0`.  A dict-like result reads
`result.get('payload', result)` and `result.get('score', 0.0)`.  Attribute
objects read their attributes with `{}` / `0.0` defaults. -/
def normalizeHit : RawHit → PyVal × PyVal
  | .tup [p, s] => (coercePayload p, s)
  | .tup [] => (.pyDict [], .pyFloat 0)
  | .tup [p] => (coercePayload p, .pyFloat 0)
  | .tup (p :: s :: _) => (coercePayload p, s)
  | .mapLike d =>
    (coercePayload ((d.lookup "payload").getD (.pyDict d)),
     (d.lookup "score").getD (.pyFloat 0))
  | .attrObj s p? => (coercePayload (p?.getD (.pyDict [])), s)
  | .unknownObj p? s? =>
    (coercePayload (p?.getD (.pyDict [])), s?.getD (.pyFloat 0))

/-! ### The search pipeline: `VectorStorage.search` (lines 201-467) and
`RetrievalService.retrieve_context` (lines 23-87) -/

/-- One normalised search result: the `result_dict` built on lines 434-441
together with the validation report attached to it on lines 444-445 (the
source stores the report inside the dict under `metadata_validation`; the pair
keeps the same information). -/
abbrev SearchItem := List (String × PyVal) × VReport

/-- The sort key `x['score']` (line 458); by construction the entry is always
a float. -/
def scoreOfDict (d : List (String × PyVal)) : Rat :=
  match d.lookup "score" with
  | some (.pyFloat q) => q
  | _ => 0

/-- The score of one search item. -/
def itemScore (it : SearchItem) : Rat :=
  scoreOfDict it.1

/-- Lines 310-451: process one raw hit — normalise payload and score, coerce
the score, apply lexical boosting (which raises `AttributeError` when the
payload content or title is not a string, as `payload.get('content',
'').lower()` does), build the result dict with the content field truncated to
200 characters, and validate its metadata. -/
def processHit (query : String) (qtime : Rat) (hit : RawHit) : Except PyExn SearchItem :=
  let pv := normalizeHit hit
  let score0 := coerceScore pv.2
  let pd := asDict pv.1
  match pyStrAttr (pyGet pd "content" (.pyStr "")) with
  | .error e => .error e
  | .ok contentS =>
    match pyStrAttr (pyGet pd "title" (.pyStr "")) with
    | .error e => .error e
    | .ok titleS =>
      let score := boostScore score0 query contentS titleS
      let contentField :=
        if contentS.length > 200 then pyTake contentS 200 ++ "..." else contentS
      let rd : List (String × PyVal) :=
        [("score", .pyFloat score), ("payload", pv.1),
         ("url", pyGet pd "url" (.pyStr "")), ("title", .pyStr titleS),
         ("content", .pyStr contentField), ("query_time", .pyFloat qtime)]
      match validate_metadata rd with
      | .error e => .error e
      | .ok rep => .ok (rd, rep)

/-- The `for result in search_result_items:` loop (lines 310-451): results are
appended in order; an exception in any iteration propagates. -/
def processAll (query : String) (qtime : Rat) : List RawHit → Except PyExn (List SearchItem)
  | [] => .ok []
  | h :: t =>
    match processHit query qtime h with
    | .error e => .error e
    | .ok it =>
      match processAll query qtime t with
      | .error e => .error e
      | .ok its => .ok (it :: its)

/-- The descending-by-score ordering used on line 458. -/
def itemGE (a b : SearchItem) : Prop :=
  itemScore b ≤ itemScore a

instance : DecidableRel itemGE :=
  fun a b => inferInstanceAs (Decidable (itemScore b ≤ itemScore a))

instance : IsTotal SearchItem itemGE :=
  ⟨fun a b => le_total (itemScore b) (itemScore a)⟩

instance : IsTrans SearchItem itemGE :=
  ⟨fun _ _ _ h1 h2 => le_trans h2 h1⟩

/-- Line 458: `results.sort(key=lambda x: x['score'], reverse=True)` — a
stable descending sort by score. -/
def sortDescByScore (l : List SearchItem) : List SearchItem :=
  l.insertionSort itemGE

/-- Lines 292-467 of `VectorStorage.search` after the index call: process all
hits, then sort descending by score (an empty hit list yields the empty list,
not an error). -/
def processHits (query : String) (qtime : Rat) (hits : List RawHit) :
    Except PyExn (List SearchItem) :=
  match processAll query qtime hits with
  | .error e => .error e
  | .ok rs => .ok (sortDescByScore rs)

/-- Outcome of calling one of the optional client search methods. -/
inductive MethodOutcome where
  | hits : List RawHit → MethodOutcome
  | noneResult : MethodOutcome
  | raises : PyExn → MethodOutcome

/-- The three index-search method variants of the Qdrant client, in the
preference order of lines 224-263: `search`, `search_points`,
`query_points`. -/
structure IndexClient where
  search : MethodOutcome
  search_points : MethodOutcome
  query_points : MethodOutcome

/-- Lines 219-267: try each method until one returns a non-`None` result,
remembering the last exception; if none succeeded, `raise last_exception or
AttributeError('Qdrant client does not have a recognized search method.')`. -/
def trySearchMethods (c : IndexClient) : Except PyExn (List RawHit) :=
  let step := fun (acc : Option (List RawHit) × Option PyExn) (m : MethodOutcome) =>
    match acc.1 with
    | some _ => acc
    | Option.none =>
      match m with
      | .hits h => (some h, acc.2)
      | .noneResult => (Option.none, acc.2)
      | .raises e => (Option.none, some e)
  let fin := [c.search, c.search_points, c.query_points].foldl step
    (Option.none, Option.none)
  match fin.1 with
  | some h => .ok h
  | Option.none =>
    match fin.2 with
    | some e => .error e
    | Option.none =>
      .error ⟨"AttributeError", "Qdrant client does not have a recognized search method."⟩

/-- `VectorStorage.search` (lines 201-467): the embedding call (whose failure
propagates out of `search`), the method chain, then per-hit processing and the
final sort.  The `limit` argument only parameterises the external index call
(`limit*2` candidates are requested); nothing in `search` truncates the result
list. -/
def vsSearch (emb : Except PyExn Unit) (c : IndexClient) (query : String)
    (qtime : Rat) : Except PyExn (List SearchItem) :=
  match emb with
  | .error e => .error e
  | .ok _ =>
    match trySearchMethods c with
    | .error e => .error e
    | .ok hits => processHits query qtime hits

/-- The externally visible unit built on lines 66-75 of
`retrieval_service.py` (pydantic's own field validation of the
`RetrievedContext` model is external and not modelled; the fields are carried
as extracted). -/
structure RetrievedContext where
  score : Rat
  content : PyVal
  url : PyVal
  title : PyVal
  headings : PyVal
  chunk_index : PyVal
  source_document : PyVal
  metadata : PyVal

/-- Lines 63-76: convert one filtered search result into a `RetrievedContext`
from its payload, with the source's defaults. -/
def toRetrievedContext (it : SearchItem) : RetrievedContext :=
  let pd := asDict (pyGet it.1 "payload" (.pyDict []))
  { score := scoreOfDict it.1
  , content := pyGet pd "content" (.pyStr "")
  , url := pyGet pd "url" (.pyStr "")
  , title := pyGet pd "title" (.pyStr "")
  , headings := pyGet pd "headings" (.pyList [])
  , chunk_index := pyGet pd "chunk_index" (.pyInt 0)
  , source_document := pyGet pd "source_document" (.pyStr "")
  , metadata := pyGet pd "metadata" (.pyDict []) }

/-- `RetrievalService.retrieve_context` (lines 23-87): parameter validation
(raised before the `try` block, hence never wrapped), the call to
`VectorStorage.search(query, limit=top_k)`, the `min_score` filter and the
conversion to `RetrievedContext`.  Any exception raised inside the `try` block
is caught and re-raised as
`RetrievalError('Failed to retrieve context: ' + str(e))` (lines 85-87).
No truncation to `top_k` happens anywhere on the result list. -/
def retrieve_context (emb : Except PyExn Unit) (c : IndexClient) (qtime : Rat)
    (query : String) (top_k : Int) (min_score : Rat) :
    Except PyExn (List RetrievedContext) :=
  if pyTrimWs query = "" then
    .error ⟨"ValidationError", "Query cannot be empty"⟩
  else if top_k < 1 ∨ top_k > 20 then
    .error ⟨"ValidationError", "top_k must be between 1 and 20"⟩
  else if min_score < 0 ∨ min_score > 1 then
    .error ⟨"ValidationError", "min_score must be between 0.0 and 1.0"⟩
  else
    match vsSearch emb c query qtime with
    | .error e => .error ⟨"RetrievalError", "Failed to retrieve context: " ++ e.msg⟩
    | .ok rs =>
      .ok (((rs.filter (fun it => min_score ≤ itemScore it)).map toRetrievedContext))

/-! ### Spec-side formulations used for comparison -/

/-- Spec 4.3, as written, for one present payload field: strings for
`url`/`title`/`content`/`source_document`, an ordered sequence of STRINGS for
`headings`, a NON-NEGATIVE integer for `chunk_index`, a mapping for
`metadata`. -/
def specFieldBad (f : String) (v : PyVal) : Bool :=
  if f = "url" ∨ f = "title" ∨ f = "content" ∨ f = "source_document" then
    !(isStr v)
  else if f = "headings" then
    match v with
    | .pyList l => l.any (fun e => !(isStr e))
    | _ => true
  else if f = "chunk_index" then
    match v with
    | .pyInt n => n < 0
    | _ => true
  else if f = "metadata" then
    !(isDict v)
  else false

/-- The code's actual check for one present payload field, stated
declaratively: `isinstance` tests only (`headings` elements unchecked,
`chunk_index` may be negative or a bool). -/
def codeFieldBad (f : String) (v : PyVal) : Bool :=
  if f = "url" ∨ f = "title" ∨ f = "content" ∨ f = "source_document" then
    !(isStr v)
  else if f = "headings" then !(isList v)
  else if f = "chunk_index" then !(isIntLike v)
  else if f = "metadata" then !(isDict v)
  else false

/-- "At least one required-field or type check fails" with a given per-field
type check. -/
def checkFailsWith (bad : String → PyVal → Bool)
    (result : List (String × PyVal)) : Bool :=
  (requiredTopFields.any (fun f => !(hasKey result f))) ||
  (match pyGet result "payload" (.pyDict []) with
   | .pyDict pd =>
     requiredPayloadFields.any (fun f =>
       match pd.lookup f with
       | Option.none => true
       | some v => bad f v)
   | _ => true)

/-- Claim C6 as the spec words it. -/
def specCheckFails (result : List (String × PyVal)) : Bool :=
  checkFailsWith specFieldBad result

/-- Claim C6 as the code implements it. -/
def codeCheckFails (result : List (String × PyVal)) : Bool :=
  checkFailsWith codeFieldBad result

/-! ### Concrete fixtures used by the closed theorems -/

/-- A well-formed stored payload with a parameterised `chunk_index`. -/
def goodPayload (ci : PyVal) : PyVal :=
  .pyDict [("url", .pyStr "https://example.com/ch1"), ("title", .pyStr "Humanoid Basics"),
           ("content", .pyStr "An introduction to humanoid robot kinematics."),
           ("headings", .pyList [.pyStr "Intro"]), ("chunk_index", ci),
           ("source_document", .pyStr "book.md"), ("metadata", .pyDict [])]

/-- An index client whose modern `search` method returns six well-formed hits
scoring `0.5` each. -/
def sixHitClient : IndexClient :=
  ⟨.hits (List.replicate 6 (.attrObj (.pyFloat (mkRat 1 2)) (some (goodPayload (.pyInt 0))))),
   .noneResult, .noneResult⟩

/-- A result envelope that passes every check of the code but carries the
negative `chunk_index` `-1`. -/
def negChunkResult : List (String × PyVal) :=
  [("score", .pyFloat (mkRat 1 2)), ("payload", goodPayload (.pyInt (-1))),
   ("url", .pyStr "https://example.com/ch1"), ("title", .pyStr "Humanoid Basics"),
   ("content", .pyStr "An introduction to humanoid robot kinematics.")]

/-- An index client on which every method variant raises the same collaborator
timeout. -/
def allTimeoutClient : IndexClient :=
  ⟨.raises ⟨"TimeoutError", "connection timed out"⟩,
   .raises ⟨"TimeoutError", "connection timed out"⟩,
   .raises ⟨"TimeoutError", "connection timed out"⟩⟩

/-- An index client returning two well-formed hits scoring `0.1` and `0.2`. -/
def lowScoreClient : IndexClient :=
  ⟨.hits [RawHit.attrObj (.pyFloat (mkRat 1 10)) (some (goodPayload (.pyInt 0))),
          RawHit.attrObj (.pyFloat (mkRat 1 5)) (some (goodPayload (.pyInt 1)))],
   .noneResult, .noneResult⟩

/-- `isinstance(v, (tuple, list))`. -/
def isSeq : PyVal → Bool
  | .pyTuple _ => true
  | .pyList _ => true
  | _ => false

/-- The field is absent from the result, or holds a string. -/
def strOrAbsent (result : List (String × PyVal)) (f : String) : Prop :=
  result.lookup f = Option.none ∨ ∃ s, result.lookup f = some (PyVal.pyStr s)

/-! ### Helper lemmas -/

theorem ratMul_eq_mul (a b : Rat) : ratMul a b = a * b := by
  rw [ratMul, Rat.mul_def, Rat.normalize_eq_mkRat]

theorem ratAdd_eq_add (a b : Rat) : ratAdd a b = a + b :=
  (Rat.add_def' a b).symm

theorem foldl_if_count (p : String → Bool) (l : List String) (n : Nat) :
    l.foldl (fun acc t => if p t then acc + 1 else acc) n = n + l.countP p := by
  induction l generalizing n with
  | nil => simp
  | cons h t ih =>
    rw [List.foldl_cons, ih, List.countP_cons]
    by_cases hp : p h <;> simp [hp] <;> omega

/-- The imperative matched-term loop is a `countP`. -/
theorem matchedTermsLoop_eq_countP (terms : List String) (c t : String) :
    matchedTermsLoop terms c t = terms.countP (termMatches c t) := by
  rw [matchedTermsLoop, foldl_if_count]
  simp

theorem foldl_append_bind {α : Type} (g : α → List String) (l : List α)
    (acc : List String) :
    l.foldl (fun a x => a ++ g x) acc = acc ++ l.flatMap g := by
  induction l generalizing acc with
  | nil => simp
  | cons h t ih => simp [ih]

/-- `payloadFieldError` is inhabited exactly where `codeFieldBad` holds. -/
theorem payloadFieldError_isSome (f : String) (v : PyVal) :
    (payloadFieldError f v).isSome = codeFieldBad f v := by
  unfold payloadFieldError codeFieldBad
  split_ifs <;> simp_all

/-- The payload-error loop, written as a `bind` over the field list. -/
theorem vmPayloadErrors_dict (pd : List (String × PyVal)) :
    vmPayloadErrors (.pyDict pd) =
      requiredPayloadFields.flatMap (fun f =>
        match pd.lookup f with
        | Option.none => ["Missing required payload field: " ++ f]
        | some v =>
          match payloadFieldError f v with
          | some e => [e]
          | Option.none => []) := by
  have h1 : vmPayloadErrors (.pyDict pd) =
      List.foldl
        (fun (a : List String) (f : String) => a ++
          (match pd.lookup f with
          | Option.none => ["Missing required payload field: " ++ f]
          | some v =>
            match payloadFieldError f v with
            | some e => [e]
            | Option.none => []))
        [] requiredPayloadFields := by
    show List.foldl
        (fun (acc : List String) (f : String) =>
          match pd.lookup f with
          | Option.none => acc ++ ["Missing required payload field: " ++ f]
          | some v =>
            match payloadFieldError f v with
            | some e => acc ++ [e]
            | Option.none => acc)
        [] requiredPayloadFields = _
    congr 1
    funext a f
    cases pd.lookup f with
    | none => rfl
    | some v => cases hpe : payloadFieldError f v <;> simp [hpe]
  rw [h1, foldl_append_bind]
  simp

theorem listIsEmpty_append (a b : List String) :
    (a ++ b).isEmpty = (a.isEmpty && b.isEmpty) := by
  cases a <;> simp [List.isEmpty]

theorem listFlatMap_isEmpty {α : Type} (g : α → List String) (l : List α) :
    (l.flatMap g).isEmpty = l.all (fun x => (g x).isEmpty) := by
  induction l with
  | nil => rfl
  | cons h t ih => simp only [List.flatMap_cons, listIsEmpty_append, ih, List.all_cons]

theorem listAll_not_any {α : Type} (p : α → Bool) (l : List α) :
    l.all (fun x => !(p x)) = !(l.any p) := by
  induction l with
  | nil => rfl
  | cons h t ih => simp [ih]

theorem listMap_isEmpty {α β : Type} (f : α → β) (l : List α) :
    (l.map f).isEmpty = l.isEmpty := by
  cases l <;> rfl

theorem listFilter_isEmpty {α : Type} (p : α → Bool) (l : List α) :
    (l.filter p).isEmpty = l.all (fun x => !(p x)) := by
  induction l with
  | nil => rfl
  | cons h t ih =>
    rw [List.filter_cons]
    cases hp : p h <;> simp [hp, ih]

/-- The `valid` flag's error list is empty exactly when no required-field or
`isinstance` check of the code fails. -/
theorem vmErrors_isEmpty_eq (result : List (String × PyVal)) :
    (vmErrors result).isEmpty = !(codeCheckFails result) := by
  have htop : (vmRequiredTopErrors result).isEmpty =
      !(requiredTopFields.any (fun f => !(hasKey result f))) := by
    unfold vmRequiredTopErrors
    rw [listMap_isEmpty, listFilter_isEmpty, listAll_not_any]
  have hpay : ∀ payload : PyVal, (vmPayloadErrors payload).isEmpty =
      !(match payload with
        | .pyDict pd =>
          requiredPayloadFields.any (fun f =>
            match pd.lookup f with
            | Option.none => true
            | some v => codeFieldBad f v)
        | _ => true) := by
    intro payload
    cases payload
    case pyDict pd =>
      rw [vmPayloadErrors_dict, listFlatMap_isEmpty]
      have hf : (fun f => ((match pd.lookup f with
          | Option.none => ["Missing required payload field: " ++ f]
          | some v =>
            match payloadFieldError f v with
            | some e => [e]
            | Option.none => []) : List String).isEmpty) =
          (fun f => !((match pd.lookup f with
          | Option.none => true
          | some v => codeFieldBad f v) : Bool)) := by
        funext f
        cases pd.lookup f with
        | none => rfl
        | some v =>
          cases hpe : payloadFieldError f v <;>
            simp [hpe, ← payloadFieldError_isSome]
      rw [hf, listAll_not_any]
    all_goals rfl
  unfold vmErrors codeCheckFails checkFailsWith
  rw [listIsEmpty_append, htop, hpay, ← Bool.not_or]

theorem sortDescByScore_sorted (l : List SearchItem) :
    (sortDescByScore l).Pairwise itemGE :=
  List.sorted_insertionSort itemGE l

theorem processHits_ok_sorted (query : String) (qtime : Rat) (hits : List RawHit)
    (rs : List SearchItem) (h : processHits query qtime hits = .ok rs) :
    rs.Pairwise itemGE := by
  unfold processHits at h
  cases hp : processAll query qtime hits with
  | error e => rw [hp] at h; simp at h
  | ok l =>
    rw [hp] at h
    injection h with h2
    rw [← h2]
    exact sortDescByScore_sorted l

theorem vsSearch_ok_sorted (emb : Except PyExn Unit) (c : IndexClient)
    (query : String) (qtime : Rat) (rs : List SearchItem)
    (h : vsSearch emb c query qtime = .ok rs) : rs.Pairwise itemGE := by
  unfold vsSearch at h
  cases emb with
  | error e => simp at h
  | ok u =>
    cases ht : trySearchMethods c with
    | error e => rw [ht] at h; simp at h
    | ok hits => rw [ht] at h; exact processHits_ok_sorted _ _ _ _ h

/-- A successful `retrieve_context` call is the min-score filter of a sorted
search result list, converted. -/
theorem retrieve_ok_form (emb : Except PyExn Unit) (c : IndexClient)
    (qtime : Rat) (query : String) (top_k : Int) (min_score : Rat)
    (l : List RetrievedContext)
    (h : retrieve_context emb c qtime query top_k min_score = .ok l) :
    ∃ rs, vsSearch emb c query qtime = .ok rs ∧ rs.Pairwise itemGE ∧
      l = ((rs.filter (fun it => min_score ≤ itemScore it)).map toRetrievedContext) := by
  unfold retrieve_context at h
  split_ifs at h <;> try simp at h
  cases hv : vsSearch emb c query qtime with
  | error e => rw [hv] at h; simp at h
  | ok rs =>
    rw [hv] at h
    injection h with h2
    exact ⟨rs, rfl, vsSearch_ok_sorted _ _ _ _ _ hv, h2.symm⟩

/-! ### Claim theorems -/

/-- C4 (counterexample): the claim says the scorer counts DISTINCT query
terms.  On the repeated-token query "ros ros" against content containing
"ros", the code counts the term once per list occurrence (2 matches, boost
1.4, score 0.7), while the distinct count of the claim gives 1 match (boost
1.2, score 0.6). -/
theorem c4_distinct_count_counterexample :
    boostScore (mkRat 1 2) "ros ros" "ros robots dds" "" ≠
      boostScoreDistinctSpec (mkRat 1 2) "ros ros" "ros robots dds" "" := by
  decide

/-- C4 (amended): the scorer tokenizes the query into whitespace tokens of raw
length > 2 stripped of surrounding punctuation, counts the query terms (with
multiplicity, not distinct) appearing case-insensitively in content or title,
and boosts by `1 + matched * 0.2` clamped at 1.0 when `matched > 0`, passing
the score through otherwise; raw score 0.4 with 2 matched terms yields 0.56
(Scenario A). -/
theorem c4_boost_formula :
    (∀ (score : Rat) (query content title : String),
      boostScore score query content title =
        boostScoreMultSpec score query content title) ∧
    boostScore (mkRat 2 5) "ros architecture" "ROS 2 architecture uses DDS" "ROS" =
      mkRat 14 25 := by
  refine ⟨fun score query content title => ?_, by decide⟩
  unfold boostScore boostScoreMultSpec matchedTermsCount
  rw [matchedTermsLoop_eq_countP]

/-- C9 (counterexample): the claim says the boosted score is always at most
1.0; on a raw score of 2.0 with a query whose terms match nothing, the score
passes through unmodified and exceeds 1.0. -/
theorem c9_bound_counterexample :
    ¬ (boostScore 2 "robot" "walking" "" ≤ 1) := by
  decide

/-- C9 (amended): the scorer is a pure function of (score, content, title,
query) — determinism holds by construction — and the boosted score is at most
1.0 whenever the incoming score is at most 1.0, and always at most 1.0 when at
least one term matched; an unmatched score above 1.0 passes through
unchanged. -/
theorem c9_deterministic_bounded :
    ∀ (s : Rat) (q c t : String),
      (s ≤ 1 → boostScore s q c t ≤ 1) ∧
      (0 < matchedTermsLoop (queryTerms q) (pyLower c) (pyLower t) →
        boostScore s q c t ≤ 1) := by
  intro s q c t
  constructor
  · intro hs
    by_cases hm : 0 < matchedTermsLoop (queryTerms q) (pyLower c) (pyLower t)
    · simp only [boostScore, if_pos hm]
      exact min_le_right _ _
    · simp only [boostScore, if_neg hm]
      exact hs
  · intro hm
    simp only [boostScore, if_pos hm]
    exact min_le_right _ _

theorem c9_deterministic_bounded_witness :
    boostScore (mkRat 1 2) "robot" "a walking robot" "" ≤ 1 :=
  (c9_deterministic_bounded (mkRat 1 2) "robot" "a walking robot" "").1 (by decide)

/-- C5: a tuple or list score collapses to its first element when that element
is numeric (as its float value) and to 0.0 when it is not; any other score
that `float()` cannot convert collapses to 0.0; in particular `[0.7, "x"]`
coerces to 0.7 and `["x", "y"]` coerces to 0.0 (Scenario E). -/
theorem c5_score_coercion :
    (∀ (x : PyVal) (r : List PyVal),
      coerceScore (.pyTuple (x :: r)) =
        if isNumeric x then (pyToFloat x).getD 0 else 0) ∧
    (∀ (x : PyVal) (r : List PyVal),
      coerceScore (.pyList (x :: r)) =
        if isNumeric x then (pyToFloat x).getD 0 else 0) ∧
    (∀ v : PyVal, isSeq v = false → pyToFloat v = Option.none → coerceScore v = 0) ∧
    coerceScore (.pyList [.pyFloat (mkRat 7 10), .pyStr "x"]) = mkRat 7 10 ∧
    coerceScore (.pyList [.pyStr "x", .pyStr "y"]) = 0 := by
  refine ⟨fun x r => ?_, fun x r => ?_, fun v hseq hfl => ?_, by decide, by decide⟩
  · cases hx : isNumeric x <;> simp [coerceScore, collapseScore, hx, pyToFloat]
  · cases hx : isNumeric x <;> simp [coerceScore, collapseScore, hx, pyToFloat]
  · cases v <;> simp_all [coerceScore, collapseScore, isSeq, pyToFloat]

theorem c5_score_coercion_witness :
    coerceScore PyVal.pyNone = 0 :=
  c5_score_coercion.2.2.1 PyVal.pyNone rfl rfl

/-- C1 (the code evaluated at the failing input): with `top_k = 3` and six
index hits that all survive `min_score = 0.3`, `retrieve_context` returns all
six results — neither `VectorStorage.search` nor
`RetrievalService.retrieve_context` ever truncates the result list to
`top_k`. -/
theorem c1_no_truncation :
    Except.map List.length
      (retrieve_context (Except.ok ()) sixHitClient 0 "humanoid robots" 3 (mkRat 3 10)) =
      Except.ok 6 := rfl

/-- C2 (counterexample): when all three method variants raise a collaborator
`TimeoutError`, the search re-raises that last exception (there is no
`IndexResponseShapeError` anywhere in the code), and `retrieve_context` does
not let it propagate unchanged — it wraps it in `RetrievalError`. -/
theorem c2_wrapping_counterexample :
    trySearchMethods allTimeoutClient =
      Except.error ⟨"TimeoutError", "connection timed out"⟩ ∧
    retrieve_context (Except.ok ()) allTimeoutClient 0 "robots" 5 (mkRat 3 10) =
      Except.error ⟨"RetrievalError",
        "Failed to retrieve context: connection timed out"⟩ :=
  ⟨rfl, rfl⟩

/-- C2 (amended): if every variant raises, the search re-raises the LAST
variant's exception; if every variant returns `None` without raising, it
raises `AttributeError('Qdrant client does not have a recognized search
method.')`; and every exception escaping the search inside
`retrieve_context`'s `try` block — collaborator exceptions included — is
re-raised wrapped as `RetrievalError('Failed to retrieve context: ...')`,
while parameter `ValidationError`s (raised before the `try`) are not
wrapped. -/
theorem c2_exception_policy :
    (∀ e1 e2 e3 : PyExn,
      trySearchMethods ⟨.raises e1, .raises e2, .raises e3⟩ = Except.error e3) ∧
    (trySearchMethods ⟨.noneResult, .noneResult, .noneResult⟩ =
      Except.error ⟨"AttributeError",
        "Qdrant client does not have a recognized search method."⟩) ∧
    (∀ (emb : Except PyExn Unit) (c : IndexClient) (qtime : Rat) (query : String)
        (top_k : Int) (min_score : Rat) (e : PyExn),
      pyTrimWs query ≠ "" → 1 ≤ top_k → top_k ≤ 20 →
      0 ≤ min_score → min_score ≤ 1 →
      vsSearch emb c query qtime = Except.error e →
      retrieve_context emb c qtime query top_k min_score =
        Except.error ⟨"RetrievalError", "Failed to retrieve context: " ++ e.msg⟩) := by
  refine ⟨fun e1 e2 e3 => rfl, rfl, ?_⟩
  intro emb c qtime query top_k min_score e hq h1 h2 h3 h4 hv
  unfold retrieve_context
  rw [if_neg hq, if_neg (by push_neg; exact ⟨by omega, by omega⟩),
    if_neg (by push_neg; exact ⟨h3, h4⟩), hv]

theorem c2_exception_policy_witness :
    retrieve_context (Except.ok ()) allTimeoutClient 0 "robots" 5 (mkRat 3 10) =
      Except.error ⟨"RetrievalError", "Failed to retrieve context: connection timed out"⟩ :=
  c2_exception_policy.2.2 (Except.ok ()) allTimeoutClient 0 "robots" 5 (mkRat 3 10)
    ⟨"TimeoutError", "connection timed out"⟩ (by decide) (by decide) (by decide)
    (by decide) (by decide) rfl

/-- C3 (counterexample): the claim says `validate_metadata` is total for every
input, including non-string `url` values; on `{'url': 123}` the truthy
non-string url reaches `url.startswith(...)` and raises `AttributeError`. -/
theorem c3_total_counterexample :
    validate_metadata [("url", PyVal.pyInt 123)] =
      Except.error ⟨"AttributeError", "object has no attribute startswith"⟩ := rfl

theorem vmWarnUrl_ok (result : List (String × PyVal))
    (hu : strOrAbsent result "url") : ∃ w, vmWarnUrl result = Except.ok w := by
  unfold vmWarnUrl
  rcases hu with h | ⟨s, h⟩ <;> rw [h]
  · exact ⟨[], rfl⟩
  · by_cases hb : pyTruthy (PyVal.pyStr s) = true
    · by_cases hp : (["http://", "https://", "/", "#", "mailto:", "tel:"].any
          (fun p => pyStartsWith s p)) = true
      · refine ⟨[], ?_⟩
        simp only [if_pos hb, if_pos hp]
      · refine ⟨["URL may not be properly formatted: " ++ pyTake s 50 ++ "..."], ?_⟩
        simp only [if_pos hb, if_neg hp]
    · refine ⟨[], ?_⟩
      simp only [if_neg hb]

theorem vmWarnTitle_ok (result : List (String × PyVal))
    (ht : strOrAbsent result "title") : ∃ w, vmWarnTitle result = Except.ok w := by
  unfold vmWarnTitle
  rcases ht with h | ⟨s, h⟩ <;> rw [h]
  · exact ⟨[], rfl⟩
  · exact ⟨if s.length > 500 then ["Title appears to be excessively long"] else [], rfl⟩

theorem vmWarnContent_ok (result : List (String × PyVal))
    (hc : strOrAbsent result "content") : ∃ w, vmWarnContent result = Except.ok w := by
  unfold vmWarnContent
  rcases hc with h | ⟨s, h⟩ <;> rw [h]
  · exact ⟨[], rfl⟩
  · by_cases hn : s.length < 10
    · refine ⟨if pyTrimWs s ≠ "" then ["Content appears to be very short"] else [], ?_⟩
      simp only [pyLenE, pyStrAttr, if_pos hn]
    · refine ⟨[], ?_⟩
      simp only [pyLenE, pyStrAttr, if_neg hn]

/-- C3 (amended): `validate_metadata` returns a `ValidationReport` without
raising for every result whose `url`, `title` and `content` values (when
present) are strings — however malformed `score`, `payload` and the payload
fields are; a truthy non-string `url` (or a short non-string `title`/`content`
reached by the length/strip checks) raises instead, as the counterexample
shows. -/
theorem c3_never_raises_on_string_fields :
    ∀ result : List (String × PyVal),
      strOrAbsent result "url" → strOrAbsent result "title" →
      strOrAbsent result "content" →
      ∃ rep : VReport, validate_metadata result = Except.ok rep := by
  intro result hu ht hc
  obtain ⟨w1, h1⟩ := vmWarnUrl_ok result hu
  obtain ⟨w2, h2⟩ := vmWarnTitle_ok result ht
  obtain ⟨w3, h3⟩ := vmWarnContent_ok result hc
  exact ⟨_, by unfold validate_metadata; rw [h1, h2, h3]⟩

theorem c3_never_raises_witness :
    ∃ rep : VReport,
      validate_metadata [("score", PyVal.pyNone), ("payload", PyVal.pyNone)] =
        Except.ok rep :=
  c3_never_raises_on_string_fields
    [("score", PyVal.pyNone), ("payload", PyVal.pyNone)]
    (Or.inl rfl) (Or.inl rfl) (Or.inl rfl)

theorem pyStrAttr_ok (v : PyVal) (s : String) (h : pyStrAttr v = Except.ok s) :
    v = PyVal.pyStr s := by
  cases v <;> simp [pyStrAttr] at h <;> rw [h]

/-- Decomposition of a successful `validate_metadata` run. -/
theorem validate_metadata_ok_parts (result : List (String × PyVal)) (rep : VReport)
    (h : validate_metadata result = Except.ok rep) :
    rep.valid = (vmErrors result).isEmpty ∧ rep.errors = vmErrors result ∧
    ∃ w1 w2 w3, vmWarnUrl result = Except.ok w1 ∧ vmWarnTitle result = Except.ok w2 ∧
      vmWarnContent result = Except.ok w3 ∧ rep.warnings = w1 ++ w2 ++ w3 := by
  unfold validate_metadata at h
  cases h1 : vmWarnUrl result with
  | error e => rw [h1] at h; simp at h
  | ok w1 =>
    rw [h1] at h
    cases h2 : vmWarnTitle result with
    | error e => rw [h2] at h; simp at h
    | ok w2 =>
      rw [h2] at h
      cases h3 : vmWarnContent result with
      | error e => rw [h3] at h; simp at h
      | ok w3 =>
        rw [h3] at h
        injection h with h4
        rw [← h4]
        exact ⟨rfl, rfl, w1, w2, w3, rfl, rfl, rfl, rfl⟩

/-- C6 (counterexample): on a result whose payload carries `chunk_index = -1`
and is otherwise fully well-typed, the code reports `valid = true` with no
errors, although the claim's type contract (`chunk_index` non-negative)
fails — so "valid=false iff at least one required-field or type check fails",
with the claim's reading of the type checks, is false at this input. -/
theorem c6_neg_chunk_counterexample :
    validate_metadata negChunkResult = Except.ok ⟨true, [], []⟩ ∧
    specCheckFails negChunkResult = true :=
  ⟨rfl, rfl⟩

/-- C6 (amended): `validate_metadata` reports `valid = false` iff at least one
required-field check or `isinstance` type check of the code fails —
url/title/content/source_document strings, `headings` a list (element types
unchecked), `chunk_index` an int (bools pass, negative values pass),
`metadata` a dict — and the soft warnings never affect `valid`. -/
theorem c6_valid_iff_code_checks :
    ∀ (result : List (String × PyVal)) (rep : VReport),
      validate_metadata result = Except.ok rep →
      (rep.valid = false ↔ codeCheckFails result = true) := by
  intro result rep h
  rw [(validate_metadata_ok_parts result rep h).1, vmErrors_isEmpty_eq]
  cases codeCheckFails result <;> simp

theorem c6_valid_iff_code_checks_witness :
    ∃ rep : VReport, validate_metadata negChunkResult = Except.ok rep ∧
      (rep.valid = false ↔ codeCheckFails negChunkResult = true) :=
  ⟨⟨true, [], []⟩, rfl, c6_valid_iff_code_checks negChunkResult ⟨true, [], []⟩ rfl⟩

theorem coercePayload_dict (v : PyVal) : ∃ d, coercePayload v = PyVal.pyDict d := by
  cases v <;> exact ⟨_, rfl⟩

/-- C7: for every supported raw-hit shape, the normalised payload is a dict —
never a string, `None` or another type; a raw string payload such as
"not-a-dict" degrades to the empty dict (Scenario B); and when a result's
payload entry is not a dict, `validate_metadata` appends "Payload must be a
dictionary" and reports `valid = false`. -/
theorem c7_payload_always_mapping :
    (∀ hit : RawHit, ∃ d, (normalizeHit hit).1 = PyVal.pyDict d) ∧
    coercePayload (PyVal.pyStr "not-a-dict") = PyVal.pyDict [] ∧
    (∀ result : List (String × PyVal),
      isDict (pyGet result "payload" (.pyDict [])) = false →
      "Payload must be a dictionary" ∈ vmErrors result) ∧
    (∀ (result : List (String × PyVal)) (rep : VReport),
      validate_metadata result = Except.ok rep →
      isDict (pyGet result "payload" (.pyDict [])) = false →
      rep.valid = false) := by
  have hmem : ∀ result : List (String × PyVal),
      isDict (pyGet result "payload" (.pyDict [])) = false →
      "Payload must be a dictionary" ∈ vmErrors result := by
    intro result hnd
    unfold vmErrors
    refine List.mem_append_right _ ?_
    cases hp : pyGet result "payload" (.pyDict []) <;> rw [hp] at hnd <;>
      simp [isDict] at hnd <;> simp [vmPayloadErrors]
  refine ⟨?_, rfl, hmem, ?_⟩
  · intro hit
    cases hit with
    | tup l =>
      rcases l with _ | ⟨p, _ | ⟨s, _ | ⟨x, rest⟩⟩⟩
      · exact ⟨[], rfl⟩
      · exact coercePayload_dict p
      · exact coercePayload_dict p
      · exact coercePayload_dict p
    | mapLike d => exact coercePayload_dict _
    | attrObj sc p? => exact coercePayload_dict _
    | unknownObj p? s? => exact coercePayload_dict _
  · intro result rep h hnd
    rw [(validate_metadata_ok_parts result rep h).1]
    have := hmem result hnd
    cases he : vmErrors result with
    | nil => rw [he] at this; cases this
    | cons a t => rfl

theorem c7_payload_always_mapping_witness :
    ("Payload must be a dictionary" ∈ vmErrors [("payload", PyVal.pyStr "x")]) ∧
    ∃ rep : VReport,
      validate_metadata [("payload", PyVal.pyStr "x")] = Except.ok rep ∧
      rep.valid = false :=
  ⟨c7_payload_always_mapping.2.2.1 [("payload", PyVal.pyStr "x")] rfl,
   ⟨_, rfl, c7_payload_always_mapping.2.2.2 [("payload", PyVal.pyStr "x")] _ rfl rfl⟩⟩

/-- C8: every successful retrieval returns a list sorted non-increasingly by
score in which every returned item scores at least `min_score`; and a valid
query all of whose search hits score below `min_score` returns `Except.ok []`
— the empty list, not an error. -/
theorem c8_filter_sort_invariant :
    (∀ (emb : Except PyExn Unit) (c : IndexClient) (qtime : Rat) (query : String)
        (top_k : Int) (min_score : Rat) (l : List RetrievedContext),
      retrieve_context emb c qtime query top_k min_score = Except.ok l →
      l.Pairwise (fun a b => b.score ≤ a.score) ∧ ∀ x ∈ l, min_score ≤ x.score) ∧
    (∀ (emb : Except PyExn Unit) (c : IndexClient) (qtime : Rat) (query : String)
        (top_k : Int) (min_score : Rat) (rs : List SearchItem),
      pyTrimWs query ≠ "" → 1 ≤ top_k → top_k ≤ 20 → 0 ≤ min_score → min_score ≤ 1 →
      vsSearch emb c query qtime = Except.ok rs →
      (∀ it ∈ rs, itemScore it < min_score) →
      retrieve_context emb c qtime query top_k min_score = Except.ok []) := by
  constructor
  · intro emb c qtime query top_k min_score l h
    obtain ⟨rs, _, hsort, hl⟩ := retrieve_ok_form emb c qtime query top_k min_score l h
    subst hl
    constructor
    · rw [List.pairwise_map]
      exact hsort.sublist (List.filter_sublist rs)
    · intro x hx
      obtain ⟨it, hit, rfl⟩ := List.mem_map.mp hx
      exact of_decide_eq_true (List.mem_filter.mp hit).2
  · intro emb c qtime query top_k min_score rs hq h1 h2 h3 h4 hv hall
    unfold retrieve_context
    rw [if_neg hq, if_neg (by push_neg; exact ⟨by omega, by omega⟩),
      if_neg (by push_neg; exact ⟨h3, h4⟩), hv]
    have hfe : rs.filter (fun it => min_score ≤ itemScore it) = [] := by
      refine List.filter_eq_nil.mpr ?_
      intro it hit
      simp only [decide_eq_true_eq]
      exact not_le.mpr (hall it hit)
    show Except.ok ((rs.filter (fun it => min_score ≤ itemScore it)).map
      toRetrievedContext) = Except.ok []
    rw [hfe]
    rfl

theorem c8_filter_sort_invariant_witness :
    ∃ l, retrieve_context (Except.ok ()) sixHitClient 0 "humanoid robots" 5 (mkRat 3 10) =
        Except.ok l ∧
      l.Pairwise (fun a b => b.score ≤ a.score) ∧ ∀ x ∈ l, mkRat 3 10 ≤ x.score := by
  refine ⟨_, rfl, ?_⟩
  exact c8_filter_sort_invariant.1 (Except.ok ()) sixHitClient 0 "humanoid robots" 5
    (mkRat 3 10) _ rfl

theorem vmWarnContent_str (result : List (String × PyVal)) (f : String)
    (h : result.lookup "content" = some (PyVal.pyStr f)) :
    vmWarnContent result = Except.ok
      (if f.length < 10 ∧ pyTrimWs f ≠ "" then
        ["Content appears to be very short"] else []) := by
  unfold vmWarnContent
  rw [h]
  by_cases hn : f.length < 10
  · by_cases htr : pyTrimWs f ≠ ""
    · simp only [pyLenE, pyStrAttr, if_pos hn, if_pos htr, if_pos (And.intro hn htr)]
    · simp only [pyLenE, pyStrAttr, if_pos hn, if_neg htr,
        if_neg (fun hand : _ ∧ _ => htr hand.2)]
  · simp only [pyLenE, pyStrAttr, if_neg hn,
      if_neg (fun hand : _ ∧ _ => hn hand.1)]

/-- C10: for every successfully processed raw hit, the payload's content is a
string `s`, the result dict's top-level `content` field is `s` truncated to
its first 200 characters followed by "..." exactly when `s` exceeds 200
characters, the `payload` entry keeps the untruncated payload, and the
validator's short-content warning is computed from the truncated field. -/
theorem c10_content_truncation :
    ∀ (query : String) (qtime : Rat) (hit : RawHit)
      (rd : List (String × PyVal)) (rep : VReport),
      processHit query qtime hit = Except.ok (rd, rep) →
      ∃ s : String,
        pyGet (asDict (normalizeHit hit).1) "content" (.pyStr "") = PyVal.pyStr s ∧
        rd.lookup "content" =
          some (PyVal.pyStr (if s.length > 200 then pyTake s 200 ++ "..." else s)) ∧
        rd.lookup "payload" = some (normalizeHit hit).1 ∧
        vmWarnContent rd = Except.ok
          (if (if s.length > 200 then pyTake s 200 ++ "..." else s).length < 10 ∧
              pyTrimWs (if s.length > 200 then pyTake s 200 ++ "..." else s) ≠ "" then
            ["Content appears to be very short"]
          else []) := by
  intro query qtime hit rd rep h
  simp only [processHit] at h
  split at h
  · simp at h
  next contentS hce =>
    split at h
    · simp at h
    next titleS hte =>
      split at h
      · simp at h
      next rep0 hve =>
        rw [Except.ok.injEq, Prod.mk.injEq] at h
        obtain ⟨hrd, hrep⟩ := h
        subst hrd
        refine ⟨contentS, pyStrAttr_ok _ _ hce, rfl, rfl, ?_⟩
        exact vmWarnContent_str _ _ rfl

theorem c10_content_truncation_witness :
    ∃ (rd : List (String × PyVal)) (rep : VReport) (s : String),
      processHit "humanoid robots" 0
        (RawHit.attrObj (.pyFloat (mkRat 1 2)) (some (goodPayload (.pyInt 0)))) =
        Except.ok (rd, rep) ∧
      rd.lookup "content" =
        some (PyVal.pyStr (if s.length > 200 then pyTake s 200 ++ "..." else s)) := by
  obtain ⟨s, h1, h2, h3, h4⟩ := c10_content_truncation "humanoid robots" 0
    (RawHit.attrObj (.pyFloat (mkRat 1 2)) (some (goodPayload (.pyInt 0)))) _ _ rfl
  exact ⟨_, _, s, rfl, h2⟩
